import Mathlib

/-!
Shallow embedding of the statistics and property-reporting subsystem of an
LSM-tree storage engine (`db/internal_stats.cc`), together with theorems
settling the specification claims about it.

Modelling conventions:
* C++ `uint64_t` counters are represented as `Nat`; 64-bit *subtraction*,
  whose wrap-around behaviour is load-bearing for the interval-diff claims,
  is modelled exactly by `usub64`.  Additions of counters are taken in `Nat`
  (no claim depends on additive overflow of accumulated byte counters).
* C++ `double` quantities (scores, seconds, ratios) are represented as `ℚ`:
  every arithmetic operation performed on them in the source (add, subtract,
  divide by a nonzero constant or a `+1`-biased counter) is exact at the
  granularity the claims discuss; floating-point rounding and fixed-width
  `snprintf` formatting are abstracted by rendering exact values.
* Query strings (`Slice`) are represented as `List Char`.
* Out-parameters written through pointers become components of the returned
  tuple; a path that leaves an out-parameter untouched returns the caller's
  value unchanged.
-/

set_option autoImplicit false

namespace RocksDBStats

/-- Wrapping subtraction of 64-bit unsigned counters: for `a b < 2^64` this is
exactly the C++ `uint64_t` difference `a - b`, which wraps modulo `2^64` when
`b > a`. -/
def usub64 (a b : Nat) : Nat := if b ≤ a then a - b else a + 2 ^ 64 - b

/-- Wrapping addition of 64-bit unsigned counters. -/
def uadd64 (a b : Nat) : Nat := (a + b) % 2 ^ 64

/-- The C++ narrowing conversion `(int)x` of a `uint64_t` value: truncation to
the low 32 bits, reinterpreted as a two's-complement signed integer (the
behaviour of the compilers this code targets). -/
def toInt32 (n : Nat) : Int :=
  if n % 2 ^ 32 < 2 ^ 31 then ((n % 2 ^ 32 : Nat) : Int)
  else ((n % 2 ^ 32 : Nat) : Int) - 2 ^ 32

/-- Constant `kMB = 1048576.0` from the source. -/
def kMB : ℚ := 1048576

/-- Constant `kGB = kMB * 1024` from the source. -/
def kGB : ℚ := kMB * 1024

/-- The closed enumeration `DBPropertyType` of queryable properties,
including the sentinel `kUnknown`. -/
inductive DBPropertyType where
  | kUnknown
  | kNumFilesAtLevel
  | kLevelStats
  | kStats
  | kCFStats
  | kDBStats
  | kSsTables
  | kNumImmutableMemTable
  | kMemtableFlushPending
  | kCompactionPending
  | kBackgroundErrors
  | kCurSizeActiveMemTable
  | kCurSizeAllMemTables
  | kNumEntriesInMutableMemtable
  | kNumEntriesInImmutableMemtable
  | kEstimatedNumKeys
  | kEstimatedUsageByTableReaders
  | kIsFileDeletionEnabled
  | kNumSnapshots
  | kOldestSnapshotTime
  | kNumLiveVersions
deriving DecidableEq, Repr

/-- The suffix-matching chain of `GetPropertyType`, applied after the
`rocksdb.` namespace has been stripped.  The result triple is
`(kind, is_int_property, need_out_of_mutex)`.  Faithful to the source:
the string-property names are tested first (with `is_int_property` still
`false`), then `*is_int_property = true;` is executed and the integer-property
names are tested, so the final fall-through returns `kUnknown` with
`is_int_property = true`. -/
def propSuffixType (sfx : List Char) : DBPropertyType × Bool × Bool :=
  if "num-files-at-level".data.isPrefixOf sfx then (.kNumFilesAtLevel, false, false)
  else if sfx = "levelstats".data then (.kLevelStats, false, false)
  else if sfx = "stats".data then (.kStats, false, false)
  else if sfx = "cfstats".data then (.kCFStats, false, false)
  else if sfx = "dbstats".data then (.kDBStats, false, false)
  else if sfx = "sstables".data then (.kSsTables, false, false)
  else if sfx = "num-immutable-mem-table".data then (.kNumImmutableMemTable, true, false)
  else if sfx = "mem-table-flush-pending".data then (.kMemtableFlushPending, true, false)
  else if sfx = "compaction-pending".data then (.kCompactionPending, true, false)
  else if sfx = "background-errors".data then (.kBackgroundErrors, true, false)
  else if sfx = "cur-size-active-mem-table".data then (.kCurSizeActiveMemTable, true, false)
  else if sfx = "cur-size-all-mem-tables".data then (.kCurSizeAllMemTables, true, false)
  else if sfx = "num-entries-active-mem-table".data then (.kNumEntriesInMutableMemtable, true, false)
  else if sfx = "num-entries-imm-mem-tables".data then (.kNumEntriesInImmutableMemtable, true, false)
  else if sfx = "estimate-num-keys".data then (.kEstimatedNumKeys, true, false)
  else if sfx = "estimate-table-readers-mem".data then (.kEstimatedUsageByTableReaders, true, true)
  else if sfx = "is-file-deletions-enabled".data then (.kIsFileDeletionEnabled, true, false)
  else if sfx = "num-snapshots".data then (.kNumSnapshots, true, false)
  else if sfx = "oldest-snapshot-time".data then (.kOldestSnapshotTime, true, false)
  else if sfx = "num-live-versions".data then (.kNumLiveVersions, true, false)
  else (.kUnknown, true, false)

/-- Embedding of `GetPropertyType`: if the query does not start with the
`rocksdb.` namespace the result is `(kUnknown, false, false)`; otherwise the
namespace is stripped and the suffix chain decides. -/
def GetPropertyType (property : List Char) : DBPropertyType × Bool × Bool :=
  if "rocksdb.".data.isPrefixOf property then
    propSuffixType (property.drop "rocksdb.".data.length)
  else (.kUnknown, false, false)

/-- Per-level compaction statistics.  The fields are those read by
`internal_stats.cc` (`micros`, `bytes_readn`, `bytes_readnp1`,
`bytes_written`, `bytes_moved`, `count`, `num_input_records`,
`num_dropped_records`), matching the data model of the spec. -/
structure CompactionStats where
  micros : Nat
  bytes_readn : Nat
  bytes_readnp1 : Nat
  bytes_written : Nat
  bytes_moved : Nat
  count : Nat
  num_input_records : Nat
  num_dropped_records : Nat
deriving DecidableEq, Repr

/-- The zero value `CompactionStats(0)` used to initialize accumulators. -/
def CompactionStats.zero : CompactionStats := ⟨0, 0, 0, 0, 0, 0, 0, 0⟩

/-- Modelled from the spec: `CompactionStats::Add` is declared in
`db/internal_stats.h`, which is not part of the given sources; the spec
defines it as the elementwise sum of all fields. -/
def CompactionStats.Add (s c : CompactionStats) : CompactionStats :=
  ⟨s.micros + c.micros, s.bytes_readn + c.bytes_readn,
   s.bytes_readnp1 + c.bytes_readnp1, s.bytes_written + c.bytes_written,
   s.bytes_moved + c.bytes_moved, s.count + c.count,
   s.num_input_records + c.num_input_records,
   s.num_dropped_records + c.num_dropped_records⟩

/-- Modelled from the spec: `CompactionStats::Subtract` is declared in
`db/internal_stats.h`, which is not part of the given sources; the spec
defines it as the elementwise difference clamped at zero per field, which is
exactly truncated `Nat` subtraction. -/
def CompactionStats.Subtract (s c : CompactionStats) : CompactionStats :=
  ⟨s.micros - c.micros, s.bytes_readn - c.bytes_readn,
   s.bytes_readnp1 - c.bytes_readnp1, s.bytes_written - c.bytes_written,
   s.bytes_moved - c.bytes_moved, s.count - c.count,
   s.num_input_records - c.num_input_records,
   s.num_dropped_records - c.num_dropped_records⟩

/-- Field-wise order on `CompactionStats` (used to state when no clamping
triggers in `Subtract`). -/
def CompactionStats.le (a b : CompactionStats) : Prop :=
  a.micros ≤ b.micros ∧ a.bytes_readn ≤ b.bytes_readn ∧
  a.bytes_readnp1 ≤ b.bytes_readnp1 ∧ a.bytes_written ≤ b.bytes_written ∧
  a.bytes_moved ≤ b.bytes_moved ∧ a.count ≤ b.count ∧
  a.num_input_records ≤ b.num_input_records ∧
  a.num_dropped_records ≤ b.num_dropped_records

instance : DecidablePred fun p : CompactionStats × CompactionStats => p.1.le p.2 :=
  fun _ => by unfold CompactionStats.le; infer_instance

/-- An immutable version snapshot, as seen by the isolated integer path: the
only accessor used is `GetMemoryUsageByTableReaders`. -/
structure Version where
  memoryUsageByTableReaders : Nat
deriving DecidableEq, Repr

/-- Embedding of `InternalStats::GetIntPropertyOutOfMutex`.  The C++ function
writes through an out-pointer and returns a `bool`; here the pair
`(value, ok)` is returned, with `value` left at the caller's `valueIn` on the
early-failure path that never writes it. -/
def GetIntPropertyOutOfMutex (property_type : DBPropertyType)
    (version : Option Version) (valueIn : Nat) : Nat × Bool :=
  if property_type ≠ .kEstimatedUsageByTableReaders then (valueIn, false)
  else
    match version with
    | none => (0, true)
    | some v => (v.memoryUsageByTableReaders, true)

/-- Compaction styles distinguished by `DumpCFStats` when choosing how many
levels to scan for scores and in-flight compactions. -/
inductive CompactionStyle where
  | kCompactionStyleLevel
  | kCompactionStyleUniversal
  | kCompactionStyleFIFO
deriving DecidableEq, Repr

/-- The read accessors of the version's storage info that `internal_stats.cc`
consults.  A level's file list is abstracted to the list of its files'
`being_compacted` flags, the only per-file datum read. -/
structure VersionStorageInfo where
  numLevels : Nat
  levelFiles : Nat → List Bool
  numLevelBytes : Nat → Nat
  compactionScoreLevel : Nat → Nat
  compactionScore : Nat → ℚ

/-- The per-column-family epoch snapshot `cf_stats_snapshot_`. -/
structure CFStatsSnapshot where
  comp_stats : CompactionStats
  ingest_bytes : Nat
  stall_us : ℚ
  stall_count : Nat
deriving DecidableEq, Repr

/-- The slice of `InternalStats` state that `DumpCFStats` and the
`kNumFilesAtLevel`/`kLevelStats` string queries read: level metadata,
per-level compaction stats, the named stall counters
(`cf_stats_value_`/`cf_stats_count_` entries and the per-level
soft/hard slowdown arrays) and the epoch snapshot. -/
structure CFState where
  number_levels : Nat
  compaction_style : CompactionStyle
  vstorage : VersionStorageInfo
  comp_stats : Nat → CompactionStats
  cf_value_level0_slowdown : Nat
  cf_value_level0_num_files : Nat
  cf_value_memtable_compaction : Nat
  cf_value_bytes_flushed : Nat
  cf_count_level0_slowdown : Nat
  cf_count_level0_num_files : Nat
  cf_count_memtable_compaction : Nat
  stall_leveln_slowdown_soft : Nat → Nat
  stall_leveln_slowdown_hard : Nat → Nat
  stall_leveln_slowdown_count_soft : Nat → Nat
  stall_leveln_slowdown_count_hard : Nat → Nat
  cf_stats_snapshot : CFStatsSnapshot

/-- Value of `num_levels_to_check` in `DumpCFStats`: all levels but the last
for leveled compaction, a single level for universal or FIFO compaction. -/
def numLevelsToCheck (st : CFState) : Nat :=
  match st.compaction_style with
  | .kCompactionStyleUniversal => 1
  | .kCompactionStyleFIFO => 1
  | .kCompactionStyleLevel => st.vstorage.numLevels - 1

/-- The accessor `vstorage->NumLevelFiles(level)`. -/
def numLevelFiles (st : CFState) (level : Nat) : Nat :=
  (st.vstorage.levelFiles level).length

/-- The score-scatter loop of `DumpCFStats`: compaction scores arrive sorted
by priority and are scattered back into level-indexed position; levels not
named by any checked slot keep the initial score `0`. -/
def compactionScoreByLevel (st : CFState) : Nat → ℚ :=
  (List.range (numLevelsToCheck st)).foldl
    (fun acc i =>
      Function.update acc (st.vstorage.compactionScoreLevel i)
        (st.vstorage.compactionScore i))
    (fun _ => 0)

/-- The `files_being_compacted` counting loop of `DumpCFStats`: only levels
below `num_levels_to_check` are scanned; other slots keep the initial `0`. -/
def filesBeingCompacted (st : CFState) (level : Nat) : Nat :=
  if level < numLevelsToCheck st then (st.vstorage.levelFiles level).count true
  else 0

/-- The per-level stall occurrence count used by `DumpCFStats`: the three
level-0 causes for level 0, the soft and hard slowdown counters otherwise. -/
def levelStallCount (st : CFState) (level : Nat) : Nat :=
  if level = 0 then
    st.cf_count_level0_slowdown + st.cf_count_level0_num_files +
      st.cf_count_memtable_compaction
  else
    st.stall_leveln_slowdown_count_soft level +
      st.stall_leveln_slowdown_count_hard level

/-- The per-level stall duration (`double stall_us`) used by `DumpCFStats`. -/
def levelStallMicros (st : CFState) (level : Nat) : ℚ :=
  if level = 0 then
    ((st.cf_value_level0_slowdown + st.cf_value_level0_num_files +
        st.cf_value_memtable_compaction : Nat) : ℚ)
  else
    ((st.stall_leveln_slowdown_soft level +
        st.stall_leveln_slowdown_hard level : Nat) : ℚ)

/-- The guard `comp_stats_[level].micros > 0 || files > 0` deciding whether a
level gets a row in the compaction-stats table. -/
def levelRenderCond (st : CFState) (level : Nat) : Bool :=
  0 < (st.comp_stats level).micros || 0 < numLevelFiles st level

/-- Per-level derived write amplification:
`(bytes_readn == 0) ? 0.0 : bytes_written / (double)bytes_readn`. -/
def levelWAmp (st : CFState) (level : Nat) : ℚ :=
  if (st.comp_stats level).bytes_readn = 0 then 0
  else ((st.comp_stats level).bytes_written : ℚ) /
    ((st.comp_stats level).bytes_readn : ℚ)

/-- The argument tuple of one `PrintLevelStats` call: one row of the
compaction-stats table before numeric formatting. -/
structure LevelStatsRow where
  name : String
  num_files : Nat
  being_compacted : Nat
  total_file_size : ℚ
  score : ℚ
  w_amp : ℚ
  stall_us : ℚ
  stalls : Nat
  stats : CompactionStats
deriving DecidableEq, Repr

/-- The row printed for one rendered level. -/
def levelRow (st : CFState) (level : Nat) : LevelStatsRow :=
  { name := "L" ++ toString level
    num_files := numLevelFiles st level
    being_compacted := filesBeingCompacted st level
    total_file_size := (st.vstorage.numLevelBytes level : ℚ)
    score := compactionScoreByLevel st level
    w_amp := levelWAmp st level
    stall_us := levelStallMicros st level
    stalls := levelStallCount st level
    stats := st.comp_stats level }

/-- The running accumulators of the main level loop of `DumpCFStats`,
together with the rows emitted so far. -/
structure CFAgg where
  rows : List LevelStatsRow
  stats_sum : CompactionStats
  total_files : Nat
  total_files_being_compacted : Nat
  total_file_size : ℚ
  total_slowdown_soft : Nat
  total_slowdown_count_soft : Nat
  total_slowdown_hard : Nat
  total_slowdown_count_hard : Nat
  total_stall_count : Nat
  total_stall_us : ℚ
deriving DecidableEq, Repr

/-- Initial accumulator values of the level loop. -/
def initCFAgg : CFAgg := ⟨[], .zero, 0, 0, 0, 0, 0, 0, 0, 0, 0⟩

/-- One iteration of the level loop of `DumpCFStats`: `total_files` and
`total_files_being_compacted` are updated unconditionally; everything else
(including row emission) only when the render guard holds. -/
def cfStep (st : CFState) (acc : CFAgg) (level : Nat) : CFAgg :=
  let files := numLevelFiles st level
  let acc1 := { acc with
    total_files := acc.total_files + files
    total_files_being_compacted :=
      acc.total_files_being_compacted + filesBeingCompacted st level }
  if levelRenderCond st level then
    { acc1 with
      rows := acc1.rows ++ [levelRow st level]
      stats_sum := acc1.stats_sum.Add (st.comp_stats level)
      total_file_size :=
        acc1.total_file_size + (st.vstorage.numLevelBytes level : ℚ)
      total_stall_us := acc1.total_stall_us + levelStallMicros st level
      total_stall_count := acc1.total_stall_count + levelStallCount st level
      total_slowdown_soft :=
        acc1.total_slowdown_soft + st.stall_leveln_slowdown_soft level
      total_slowdown_count_soft :=
        acc1.total_slowdown_count_soft +
          st.stall_leveln_slowdown_count_soft level
      total_slowdown_hard :=
        acc1.total_slowdown_hard + st.stall_leveln_slowdown_hard level
      total_slowdown_count_hard :=
        acc1.total_slowdown_count_hard +
          st.stall_leveln_slowdown_count_hard level }
  else acc1

/-- The accumulator state after the whole level loop. -/
def cfAggOf (st : CFState) : CFAgg :=
  (List.range st.number_levels).foldl (cfStep st) initCFAgg

/-- The trailing `Sum` row: totals over the rendered levels, score `0`, and
write amplification `stats_sum.bytes_written / (double)(curr_ingest + 1)`. -/
def cfSumRow (st : CFState) : LevelStatsRow :=
  let agg := cfAggOf st
  { name := "Sum"
    num_files := agg.total_files
    being_compacted := agg.total_files_being_compacted
    total_file_size := agg.total_file_size
    score := 0
    w_amp := (agg.stats_sum.bytes_written : ℚ) /
      ((st.cf_value_bytes_flushed + 1 : Nat) : ℚ)
    stall_us := agg.total_stall_us
    stalls := agg.total_stall_count
    stats := agg.stats_sum }

/-- The biased interval ingest
`curr_ingest - cf_stats_snapshot_.ingest_bytes + 1` in `uint64_t`
arithmetic. -/
def cfIntervalIngest (st : CFState) : Nat :=
  uadd64 (usub64 st.cf_value_bytes_flushed st.cf_stats_snapshot.ingest_bytes) 1

/-- The trailing `Int` row: the interval-diffed aggregate.  The
`CompactionStats` diff goes through `Subtract`; the stall duration is a
`double` difference and the stall count a `uint64_t` difference. -/
def cfIntRow (st : CFState) : LevelStatsRow :=
  let agg := cfAggOf st
  let interval_stats := agg.stats_sum.Subtract st.cf_stats_snapshot.comp_stats
  { name := "Int"
    num_files := 0
    being_compacted := 0
    total_file_size := 0
    score := 0
    w_amp := (interval_stats.bytes_written : ℚ) / ((cfIntervalIngest st : Nat) : ℚ)
    stall_us := agg.total_stall_us - st.cf_stats_snapshot.stall_us
    stalls := usub64 agg.total_stall_count st.cf_stats_snapshot.stall_count
    stats := interval_stats }

/-- The data content of the per-column-family report: the table rows in
order, and the figures of the trailing `Flush(GB)`, `Stalls(secs)` and
`Stalls(count)` lines. -/
structure CFReport where
  rows : List LevelStatsRow
  flush_gb_cumulative : ℚ
  flush_gb_interval : ℚ
  secs_level0_slowdown : ℚ
  secs_level0_numfiles : ℚ
  secs_memtable_compaction : ℚ
  secs_leveln_slowdown_soft : ℚ
  secs_leveln_slowdown_hard : ℚ
  count_level0_slowdown : Nat
  count_level0_numfiles : Nat
  count_memtable_compaction : Nat
  count_leveln_slowdown_soft : Nat
  count_leveln_slowdown_hard : Nat
deriving DecidableEq, Repr

/-- Embedding of `InternalStats::DumpCFStats`: produces the report data and
the overwritten epoch snapshot (the function's only mutation of state owned
by this subsystem). -/
def DumpCFStats (st : CFState) : CFReport × CFStatsSnapshot :=
  let agg := cfAggOf st
  let curr_ingest := st.cf_value_bytes_flushed
  let report : CFReport :=
    { rows := agg.rows ++ [cfSumRow st, cfIntRow st]
      flush_gb_cumulative := (curr_ingest : ℚ) / kGB
      flush_gb_interval := (cfIntervalIngest st : ℚ) / kGB
      secs_level0_slowdown := (st.cf_value_level0_slowdown : ℚ) / 1000000
      secs_level0_numfiles := (st.cf_value_level0_num_files : ℚ) / 1000000
      secs_memtable_compaction := (st.cf_value_memtable_compaction : ℚ) / 1000000
      secs_leveln_slowdown_soft := (agg.total_slowdown_soft : ℚ) / 1000000
      secs_leveln_slowdown_hard := (agg.total_slowdown_hard : ℚ) / 1000000
      count_level0_slowdown := st.cf_count_level0_slowdown
      count_level0_numfiles := st.cf_count_level0_num_files
      count_memtable_compaction := st.cf_count_memtable_compaction
      count_leveln_slowdown_soft := agg.total_slowdown_count_soft
      count_leveln_slowdown_hard := agg.total_slowdown_count_hard }
  let snap : CFStatsSnapshot :=
    { comp_stats := agg.stats_sum
      ingest_bytes := curr_ingest
      stall_us := agg.total_stall_us
      stall_count := agg.total_stall_count }
  (report, snap)

/-- The DB-wide epoch snapshot `db_stats_snapshot_`. -/
structure DBStatsSnapshot where
  ingest_bytes : Nat
  wal_bytes : Nat
  wal_synced : Nat
  write_with_wal : Nat
  write_other : Nat
  write_self : Nat
  num_keys_written : Nat
  write_stall_micros : Nat
  seconds_up : ℚ
deriving DecidableEq, Repr

/-- The slice of state read by `DumpDBStats`: the `db_stats_` counter array
(written by the external write path), the engine start timestamp, and the
epoch snapshot owned by this subsystem. -/
structure DBState where
  bytes_written : Nat
  num_keys_written : Nat
  write_done_by_other : Nat
  write_done_by_self : Nat
  wal_file_bytes : Nat
  wal_file_synced : Nat
  write_with_wal : Nat
  write_stall_micros : Nat
  started_at : Nat
  db_stats_snapshot : DBStatsSnapshot

/-- The data content of the DB-wide narrative report: uptime, cumulative
write/WAL figures, and the interval figures diffed against the epoch
snapshot. -/
structure DBReport where
  seconds_up : ℚ
  interval_seconds_up : ℚ
  cumulative_writes : Nat
  cumulative_keys : Nat
  cumulative_batches : Nat
  writes_per_batch : ℚ
  user_ingest_gb : ℚ
  stall_micros : Nat
  wal_writes : Nat
  wal_syncs : Nat
  wal_writes_per_sync : ℚ
  wal_gb : ℚ
  interval_write_other : Nat
  interval_write_self : Nat
  interval_writes : Nat
  interval_num_keys_written : Nat
  interval_writes_per_batch : ℚ
  interval_ingest_bytes : Nat
  interval_stall_micros : Nat
  interval_write_with_wal : Nat
  interval_wal_synced : Nat
  interval_wal_bytes : Nat
  interval_wal_writes_per_sync : ℚ
deriving DecidableEq, Repr

/-- Embedding of `InternalStats::DumpDBStats`: computes the report data from
the counters, the wall clock `now` (`env_->NowMicros()`) and the stored
snapshot, and returns the overwritten snapshot.  Every interval counter is
the raw `uint64_t` difference `current - snapshot` (wrapping, not clamped);
the ratio denominators carry the source's `+1` bias. -/
def DumpDBStats (db : DBState) (now : Nat) : DBReport × DBStatsSnapshot :=
  let seconds_up : ℚ := ((uadd64 (usub64 now db.started_at) 1 : Nat) : ℚ) / 1000000
  let write_other := db.write_done_by_other
  let write_self := db.write_done_by_self
  let interval_write_other := usub64 write_other db.db_stats_snapshot.write_other
  let interval_write_self := usub64 write_self db.db_stats_snapshot.write_self
  let interval_write_with_wal :=
    usub64 db.write_with_wal db.db_stats_snapshot.write_with_wal
  let interval_wal_synced :=
    usub64 db.wal_file_synced db.db_stats_snapshot.wal_synced
  let report : DBReport :=
    { seconds_up := seconds_up
      interval_seconds_up := seconds_up - db.db_stats_snapshot.seconds_up
      cumulative_writes := uadd64 write_other write_self
      cumulative_keys := db.num_keys_written
      cumulative_batches := write_self
      writes_per_batch :=
        ((uadd64 write_other write_self : Nat) : ℚ) / ((write_self + 1 : Nat) : ℚ)
      user_ingest_gb := (db.bytes_written : ℚ) / kGB
      stall_micros := db.write_stall_micros
      wal_writes := db.write_with_wal
      wal_syncs := db.wal_file_synced
      wal_writes_per_sync :=
        (db.write_with_wal : ℚ) / ((db.wal_file_synced + 1 : Nat) : ℚ)
      wal_gb := (db.wal_file_bytes : ℚ) / kGB
      interval_write_other := interval_write_other
      interval_write_self := interval_write_self
      interval_writes := uadd64 interval_write_other interval_write_self
      interval_num_keys_written :=
        usub64 db.num_keys_written db.db_stats_snapshot.num_keys_written
      interval_writes_per_batch :=
        ((uadd64 interval_write_other interval_write_self : Nat) : ℚ) /
          ((interval_write_self + 1 : Nat) : ℚ)
      interval_ingest_bytes :=
        usub64 db.bytes_written db.db_stats_snapshot.ingest_bytes
      interval_stall_micros :=
        usub64 db.write_stall_micros db.db_stats_snapshot.write_stall_micros
      interval_write_with_wal := interval_write_with_wal
      interval_wal_synced := interval_wal_synced
      interval_wal_bytes :=
        usub64 db.wal_file_bytes db.db_stats_snapshot.wal_bytes
      interval_wal_writes_per_sync :=
        (interval_write_with_wal : ℚ) / ((interval_wal_synced + 1 : Nat) : ℚ) }
  let snap : DBStatsSnapshot :=
    { ingest_bytes := db.bytes_written
      wal_bytes := db.wal_file_bytes
      wal_synced := db.wal_file_synced
      write_with_wal := db.write_with_wal
      write_other := write_other
      write_self := write_self
      num_keys_written := db.num_keys_written
      write_stall_micros := db.write_stall_micros
      seconds_up := seconds_up }
  (report, snap)

/-- Modelled from the spec: `ConsumeDecimalNumber` lives in
`util/string_util.h`, which is not part of the given sources.  Per the spec,
the level argument is "a decimal integer suffix" whose malformed (non-numeric
or overflowing the 64-bit value) forms are failures: the maximal leading run
of decimal digits is consumed into a `uint64_t` value, failing when there is
no digit or the value does not fit in 64 bits; the unconsumed remainder of
the input is returned alongside the value. -/
def ConsumeDecimalNumber (s : List Char) : Option (Nat × List Char) :=
  let digits := s.takeWhile fun c => c.isDigit
  if digits = [] then none
  else
    let v := digits.foldl (fun a c => a * 10 + (c.toNat - 48)) 0
    if 2 ^ 64 ≤ v then none
    else some (v, s.dropWhile fun c => c.isDigit)

/-- Rendering of one `PrintLevelStats` row.  The figures appear in the
source's column order with the source's derived expressions (`bytes_read`,
`bytes_new`, `elapsed`, throughputs, averages); fixed-width `%…f` formatting
is abstracted by printing the exact rational values. -/
def renderLevelRow (r : LevelStatsRow) : String :=
  let bytes_read := r.stats.bytes_readn + r.stats.bytes_readnp1
  let bytes_new := usub64 r.stats.bytes_written r.stats.bytes_readnp1
  let elapsed : ℚ := ((r.stats.micros + 1 : Nat) : ℚ) / 1000000
  r.name ++ " " ++ toString r.num_files ++ "/" ++ toString r.being_compacted ++
  " " ++ toString (r.total_file_size / kMB) ++ " " ++ toString r.score ++
  " " ++ toString ((bytes_read : ℚ) / kGB) ++
  " " ++ toString ((r.stats.bytes_readn : ℚ) / kGB) ++
  " " ++ toString ((r.stats.bytes_readnp1 : ℚ) / kGB) ++
  " " ++ toString ((r.stats.bytes_written : ℚ) / kGB) ++
  " " ++ toString ((bytes_new : ℚ) / kGB) ++
  " " ++ toString ((r.stats.bytes_moved : ℚ) / kGB) ++
  " " ++ toString r.w_amp ++
  " " ++ toString ((bytes_read : ℚ) / kMB / elapsed) ++
  " " ++ toString ((r.stats.bytes_written : ℚ) / kMB / elapsed) ++
  " " ++ toString ((r.stats.micros : ℚ) / 1000000) ++
  " " ++ toString r.stats.count ++
  " " ++ toString (if r.stats.count = 0 then (0 : ℚ)
      else (r.stats.micros : ℚ) / 1000000 / (r.stats.count : ℚ)) ++
  " " ++ toString (r.stall_us / 1000000) ++
  " " ++ toString r.stalls ++
  " " ++ toString (if r.stalls = 0 then (0 : ℚ)
      else r.stall_us / 1000 / (r.stalls : ℚ)) ++
  " " ++ toString r.stats.num_input_records ++
  " " ++ toString r.stats.num_dropped_records ++ "\n"

/-- Rendering of the `PrintLevelStatsHeader` banner. -/
def renderLevelStatsHeader (cf_name : String) : String :=
  "\n** Compaction Stats [" ++ cf_name ++ "] **\n" ++
  "Level   Files   Size(MB) Score Read(GB)  Rn(GB) Rnp1(GB) " ++
  "Write(GB) Wnew(GB) Moved(GB) W-Amp Rd(MB/s) Wr(MB/s) " ++
  "Comp(sec) Comp(cnt) Avg(sec) " ++
  "Stall(sec) Stall(cnt) Avg(ms)     RecordIn   RecordDrop\n"

/-- Rendering of the text appended by `DumpCFStats`: header, rows, and the
trailing `Flush(GB)` / `Stalls(secs)` / `Stalls(count)` lines. -/
def renderCFReport (cf_name : String) (r : CFReport) : String :=
  renderLevelStatsHeader cf_name ++
  String.join (r.rows.map renderLevelRow) ++
  "Flush(GB): accumulative " ++ toString r.flush_gb_cumulative ++
  ", interval " ++ toString r.flush_gb_interval ++ "\n" ++
  "Stalls(secs): " ++ toString r.secs_level0_slowdown ++ " level0_slowdown, " ++
  toString r.secs_level0_numfiles ++ " level0_numfiles, " ++
  toString r.secs_memtable_compaction ++ " memtable_compaction, " ++
  toString r.secs_leveln_slowdown_soft ++ " leveln_slowdown_soft, " ++
  toString r.secs_leveln_slowdown_hard ++ " leveln_slowdown_hard\n" ++
  "Stalls(count): " ++ toString r.count_level0_slowdown ++ " level0_slowdown, " ++
  toString r.count_level0_numfiles ++ " level0_numfiles, " ++
  toString r.count_memtable_compaction ++ " memtable_compaction, " ++
  toString r.count_leveln_slowdown_soft ++ " leveln_slowdown_soft, " ++
  toString r.count_leveln_slowdown_hard ++ " leveln_slowdown_hard\n"

/-- Rendering of the text appended by `DumpDBStats`. -/
def renderDBReport (r : DBReport) : String :=
  "\n** DB Stats **\nUptime(secs): " ++ toString r.seconds_up ++ " total, " ++
  toString r.interval_seconds_up ++ " interval\n" ++
  "Cumulative writes: " ++ toString r.cumulative_writes ++ " writes, " ++
  toString r.cumulative_keys ++ " keys, " ++ toString r.cumulative_batches ++
  " batches, " ++ toString r.writes_per_batch ++ " writes per batch, " ++
  toString r.user_ingest_gb ++ " GB user ingest, stall micros: " ++
  toString r.stall_micros ++ "\n" ++
  "Cumulative WAL: " ++ toString r.wal_writes ++ " writes, " ++
  toString r.wal_syncs ++ " syncs, " ++ toString r.wal_writes_per_sync ++
  " writes per sync, " ++ toString r.wal_gb ++ " GB written\n" ++
  "Interval writes: " ++ toString r.interval_writes ++ " writes, " ++
  toString r.interval_num_keys_written ++ " keys, " ++
  toString r.interval_write_self ++ " batches, " ++
  toString r.interval_writes_per_batch ++ " writes per batch, " ++
  toString ((r.interval_ingest_bytes : ℚ) / kMB) ++ " MB user ingest, " ++
  "stall micros: " ++ toString r.interval_stall_micros ++ "\n" ++
  "Interval WAL: " ++ toString r.interval_write_with_wal ++ " writes, " ++
  toString r.interval_wal_synced ++ " syncs, " ++
  toString r.interval_wal_writes_per_sync ++ " writes per sync, " ++
  toString ((r.interval_wal_bytes : ℚ) / kGB) ++ " MB written\n"

/-- The state visible to `GetStringProperty`: the per-column-family and
DB-wide statistic state, the column family's name, the current version's
`DebugString` (an external collaborator), and the wall clock reading the
environment would supply. -/
structure EngineState where
  cf : CFState
  db : DBState
  cf_name : String
  debugString : String
  nowMicros : Nat

/-- Rendering of the `kLevelStats` table: a fixed header and one line per
configured level with its file count and size in MB. -/
def renderLevelStats (st : CFState) : String :=
  "Level Files Size(MB)\n--------------------\n" ++
  String.join ((List.range st.number_levels).map fun level =>
    toString level ++ " " ++ toString (numLevelFiles st level) ++ " " ++
    toString ((st.vstorage.numLevelBytes level : ℚ) / kMB) ++ "\n")

/-- Embedding of `InternalStats::GetStringProperty`, structured with explicit
recursion depth: the only recursive case is `kStats`, which re-invokes the
function on `kCFStats` and then `kDBStats`, so a depth of two covers every
execution of the source.  The result is `(ok, value, state)`; the
`kNumFilesAtLevel` and `kSsTables` branches assign `*value` (replacing it),
the report branches append to it, and failure paths leave it unchanged. -/
def GetStringPropertyFuel :
    Nat → EngineState → DBPropertyType → List Char → String →
      Bool × String × EngineState
  | 0, st, _, _, value => (false, value, st)
  | fuel + 1, st, property_type, property, value =>
    match property_type with
    | .kNumFilesAtLevel =>
      let rest := property.drop "rocksdb.num-files-at-level".data.length
      match ConsumeDecimalNumber rest with
      | none => (false, value, st)
      | some (level, remaining) =>
        if remaining ≠ [] ∨ (st.cf.number_levels : Int) ≤ toInt32 level then
          (false, value, st)
        else
          -- The C++ indexes the per-level file vector with the narrowed
          -- `(int)level`; a negative narrowed index would be out-of-bounds
          -- undefined behaviour there and is represented here by `Int.toNat`.
          (true, toString (numLevelFiles st.cf (toInt32 level).toNat), st)
    | .kLevelStats => (true, value ++ renderLevelStats st.cf, st)
    | .kStats =>
      let r1 := GetStringPropertyFuel fuel st .kCFStats "rocksdb.cfstats".data value
      if r1.1 = false then (false, r1.2.1, r1.2.2)
      else
        let r2 :=
          GetStringPropertyFuel fuel r1.2.2 .kDBStats "rocksdb.dbstats".data r1.2.1
        if r2.1 = false then (false, r2.2.1, r2.2.2)
        else (true, r2.2.1, r2.2.2)
    | .kCFStats =>
      let rs := DumpCFStats st.cf
      (true, value ++ renderCFReport st.cf_name rs.1,
        { st with cf := { st.cf with cf_stats_snapshot := rs.2 } })
    | .kDBStats =>
      let rs := DumpDBStats st.db st.nowMicros
      (true, value ++ renderDBReport rs.1,
        { st with db := { st.db with db_stats_snapshot := rs.2 } })
    | .kSsTables => (true, st.debugString, st)
    | _ => (false, value, st)

/-- Embedding of `InternalStats::GetStringProperty` at the depth sufficient
for every property kind. -/
def GetStringProperty (st : EngineState) (property_type : DBPropertyType)
    (property : List Char) (value : String) : Bool × String × EngineState :=
  GetStringPropertyFuel 2 st property_type property value

/-! ### Theorems settling the claims -/

/-- C5: for the estimate-table-readers-mem kind, `GetIntPropertyOutOfMutex`
invoked with a null version-snapshot reference returns success with value
zero — the pair `(0, true)` — never a failure, for any prior content of the
out-parameter. -/
theorem C5_null_version_returns_zero_success (valueIn : Nat) :
    GetIntPropertyOutOfMutex .kEstimatedUsageByTableReaders none valueIn
      = (0, true) := rfl

/-- C10: for every property kind other than the estimated table-reader memory
kind, `GetIntPropertyOutOfMutex` returns failure and leaves the output value
unchanged, regardless of whether a version snapshot is supplied. -/
theorem C10_other_kinds_fail_value_unchanged (property_type : DBPropertyType)
    (h : property_type ≠ .kEstimatedUsageByTableReaders)
    (version : Option Version) (valueIn : Nat) :
    GetIntPropertyOutOfMutex property_type version valueIn = (valueIn, false) := by
  simp [GetIntPropertyOutOfMutex, h]

/-- Witness for C10 at the `kStats` kind with a present version and value 7. -/
theorem C10_other_kinds_fail_value_unchanged_witness :
    DBPropertyType.kStats ≠ DBPropertyType.kEstimatedUsageByTableReaders ∧
    GetIntPropertyOutOfMutex .kStats (some ⟨42⟩) 7 = (7, false) :=
  ⟨by decide, C10_other_kinds_fail_value_unchanged .kStats (by decide) (some ⟨42⟩) 7⟩

/-- C7: `Subtract(A, A)` is the all-zero `CompactionStats` value, and for
`B ≤ A` field-wise (so the zero-clamp never triggers),
`Add(Subtract(A, B), B) = A` field-wise.  (`Add` and `Subtract` are modelled
from the spec, their definitions living in the header outside the given
sources.) -/
theorem C7_subtract_add_roundtrip (A B : CompactionStats) (h : B.le A) :
    A.Subtract A = CompactionStats.zero ∧ (A.Subtract B).Add B = A := by
  obtain ⟨h1, h2, h3, h4, h5, h6, h7, h8⟩ := h
  cases A; cases B
  constructor
  · simp [CompactionStats.Subtract, CompactionStats.zero]
  · simp only [CompactionStats.Subtract, CompactionStats.Add,
      CompactionStats.mk.injEq] at *
    omega

/-- Witness for C7 at concrete values `A = (10,…,80)`, `B = (1,…,8)`. -/
theorem C7_subtract_add_roundtrip_witness :
    CompactionStats.le ⟨1, 2, 3, 4, 5, 6, 7, 8⟩ ⟨10, 20, 30, 40, 50, 60, 70, 80⟩ ∧
    ((⟨10, 20, 30, 40, 50, 60, 70, 80⟩ : CompactionStats).Subtract
        ⟨10, 20, 30, 40, 50, 60, 70, 80⟩ = CompactionStats.zero ∧
      ((⟨10, 20, 30, 40, 50, 60, 70, 80⟩ : CompactionStats).Subtract
          ⟨1, 2, 3, 4, 5, 6, 7, 8⟩).Add ⟨1, 2, 3, 4, 5, 6, 7, 8⟩
        = ⟨10, 20, 30, 40, 50, 60, 70, 80⟩) :=
  ⟨by simp [CompactionStats.le],
    C7_subtract_add_roundtrip _ _ (by simp [CompactionStats.le])⟩

/-- The nineteen exact documented suffixes (the twentieth documented name,
`num-files-at-level<N>`, is matched as a family) with the kind and flags the
catalog assigns to each. -/
def documentedSuffixes : List (List Char × (DBPropertyType × Bool × Bool)) :=
  [("levelstats".data, (.kLevelStats, false, false)),
   ("stats".data, (.kStats, false, false)),
   ("cfstats".data, (.kCFStats, false, false)),
   ("dbstats".data, (.kDBStats, false, false)),
   ("sstables".data, (.kSsTables, false, false)),
   ("num-immutable-mem-table".data, (.kNumImmutableMemTable, true, false)),
   ("mem-table-flush-pending".data, (.kMemtableFlushPending, true, false)),
   ("compaction-pending".data, (.kCompactionPending, true, false)),
   ("background-errors".data, (.kBackgroundErrors, true, false)),
   ("cur-size-active-mem-table".data, (.kCurSizeActiveMemTable, true, false)),
   ("cur-size-all-mem-tables".data, (.kCurSizeAllMemTables, true, false)),
   ("num-entries-active-mem-table".data, (.kNumEntriesInMutableMemtable, true, false)),
   ("num-entries-imm-mem-tables".data, (.kNumEntriesInImmutableMemtable, true, false)),
   ("estimate-num-keys".data, (.kEstimatedNumKeys, true, false)),
   ("estimate-table-readers-mem".data, (.kEstimatedUsageByTableReaders, true, true)),
   ("is-file-deletions-enabled".data, (.kIsFileDeletionEnabled, true, false)),
   ("num-snapshots".data, (.kNumSnapshots, true, false)),
   ("oldest-snapshot-time".data, (.kOldestSnapshotTime, true, false)),
   ("num-live-versions".data, (.kNumLiveVersions, true, false))]

lemma propSuffixType_isolated_iff (sfx : List Char) :
    (propSuffixType sfx).2.2 = true ↔ sfx = "estimate-table-readers-mem".data := by
  by_cases htar : sfx = "estimate-table-readers-mem".data
  · subst htar; decide
  · refine iff_of_false ?_ htar
    simp only [propSuffixType,
      apply_ite (fun x : DBPropertyType × Bool × Bool => x.2.2), htar,
      if_false, ite_self]
    simp

lemma propSuffixType_unrecognized (sfx : List Char)
    (hfam : "num-files-at-level".data.isPrefixOf sfx = false)
    (hmem : sfx ∉ documentedSuffixes.map Prod.fst) :
    propSuffixType sfx = (.kUnknown, true, false) := by
  simp only [documentedSuffixes, List.map_cons, List.map_nil, List.mem_cons,
    List.not_mem_nil, or_false, not_or] at hmem
  obtain ⟨m1, m2, m3, m4, m5, m6, m7, m8, m9, m10, m11, m12, m13, m14, m15,
    m16, m17, m18, m19⟩ := hmem
  simp [propSuffixType, hfam, m1, m2, m3, m4, m5, m6, m7, m8, m9, m10, m11,
    m12, m13, m14, m15, m16, m17, m18, m19]

lemma getPropertyType_of_pfx (p : List Char)
    (h : "rocksdb.".data.isPrefixOf p = true) :
    GetPropertyType p = propSuffixType (p.drop 8) := by
  unfold GetPropertyType
  rw [if_pos h, show "rocksdb.".data.length = 8 from rfl]

lemma pfx_decomp (p : List Char) (h : "rocksdb.".data.isPrefixOf p = true) :
    p = "rocksdb.".data ++ p.drop 8 := by
  rw [List.isPrefixOf_iff_prefix] at h
  obtain ⟨t, ht⟩ := h
  subst ht
  rw [show (8 : Nat) = "rocksdb.".data.length from rfl, List.drop_left]

/-- C1 counterexample: for a prefix-bearing query with an unrecognized
suffix, `GetPropertyType` reports `is_int_property = true` (the flag is set
speculatively before the integer-name chain and never reset on the
fall-through), contradicting the claimed `(unknown, false, false)`. -/
theorem C1_counterexample_is_int_on_unknown :
    GetPropertyType "rocksdb.unrecognized-name".data = (.kUnknown, true, false) ∧
    ((DBPropertyType.kUnknown, true, false) : DBPropertyType × Bool × Bool)
      ≠ (.kUnknown, false, false) := by
  constructor
  · decide
  · decide

/-- C1 amended: every documented name (the `num-files-at-level` family with
any suffix, plus the nineteen exact names) resolves to its documented kind
and flags; `needs_isolated_read` holds exactly for
`rocksdb.estimate-table-readers-mem`; a string without the namespace yields
`(unknown, false, false)`; a prefix-bearing string with unrecognized suffix
yields kind `unknown` with `needs_isolated_read = false` but
`is_int_property = true`. -/
theorem C1_amended_catalog :
    (∀ sfx : List Char,
        GetPropertyType ("rocksdb.num-files-at-level".data ++ sfx)
          = (.kNumFilesAtLevel, false, false)) ∧
    (∀ pr ∈ documentedSuffixes,
        GetPropertyType ("rocksdb.".data ++ pr.1) = pr.2) ∧
    (∀ p : List Char, (GetPropertyType p).2.2 = true ↔
        p = "rocksdb.estimate-table-readers-mem".data) ∧
    (∀ p : List Char, "rocksdb.".data.isPrefixOf p = false →
        GetPropertyType p = (.kUnknown, false, false)) ∧
    (∀ p : List Char, "rocksdb.".data.isPrefixOf p = true →
        "num-files-at-level".data.isPrefixOf (p.drop 8) = false →
        p.drop 8 ∉ documentedSuffixes.map Prod.fst →
        GetPropertyType p = (.kUnknown, true, false)) := by
  refine ⟨?_, ?_, ?_, ?_, ?_⟩
  · intro sfx
    have hp : "rocksdb.".data.isPrefixOf ("rocksdb.num-files-at-level".data ++ sfx) = true := by
      rw [List.isPrefixOf_iff_prefix,
        show "rocksdb.num-files-at-level".data
          = "rocksdb.".data ++ "num-files-at-level".data from rfl,
        List.append_assoc]
      exact List.prefix_append _ _
    rw [getPropertyType_of_pfx _ hp,
      show "rocksdb.num-files-at-level".data
        = "rocksdb.".data ++ "num-files-at-level".data from rfl,
      List.append_assoc,
      show (8 : Nat) = "rocksdb.".data.length from rfl, List.drop_left]
    have hf : "num-files-at-level".data.isPrefixOf
        ("num-files-at-level".data ++ sfx) = true := by
      rw [List.isPrefixOf_iff_prefix]; exact List.prefix_append _ _
    unfold propSuffixType
    rw [if_pos hf]
  · decide
  · intro p
    by_cases hpf : "rocksdb.".data.isPrefixOf p = true
    · rw [getPropertyType_of_pfx p hpf, propSuffixType_isolated_iff]
      have hd := pfx_decomp p hpf
      constructor
      · intro h
        rw [hd, h]
        decide
      · intro h
        subst h
        decide
    · rw [Bool.not_eq_true] at hpf
      unfold GetPropertyType
      rw [if_neg (by simp [hpf])]
      exact iff_of_false (by decide) fun hh => by
        rw [hh] at hpf; exact absurd hpf (by decide)
  · intro p h
    unfold GetPropertyType
    rw [if_neg (by simp [h])]
  · intro p hp hfam hm
    rw [getPropertyType_of_pfx p hp]
    exact propSuffixType_unrecognized _ hfam hm

/-- Witness for C1 at `rocksdb.num-files-at-level7` and at a string without
the namespace. -/
theorem C1_amended_catalog_witness :
    GetPropertyType ("rocksdb.num-files-at-level".data ++ "7".data)
      = (.kNumFilesAtLevel, false, false) ∧
    "rocksdb.".data.isPrefixOf "zzz".data = false ∧
    GetPropertyType "zzz".data = (.kUnknown, false, false) :=
  ⟨C1_amended_catalog.1 "7".data, by decide,
    C1_amended_catalog.2.2.2.1 "zzz".data (by decide)⟩

lemma usub64_self (a : Nat) : usub64 a a = 0 := by simp [usub64]

lemma usub64_of_le {a b : Nat} (h : b ≤ a) : usub64 a b = a - b := by
  simp [usub64, h]

lemma usub64_add_cancel {a b : Nat} (h : b ≤ a) : usub64 a b + b = a := by
  rw [usub64_of_le h]
  omega

lemma compactionStats_sub_self (a : CompactionStats) :
    a.Subtract a = CompactionStats.zero := by
  cases a
  simp [CompactionStats.Subtract, CompactionStats.zero]

lemma compactionStats_sub_add_cancel {a b : CompactionStats} (h : b.le a) :
    (a.Subtract b).Add b = a := by
  obtain ⟨h1, h2, h3, h4, h5, h6, h7, h8⟩ := h
  cases a; cases b
  simp only [CompactionStats.Subtract, CompactionStats.Add,
    CompactionStats.mk.injEq] at *
  omega

/-- A DB-stats state used by concrete witnesses: every snapshot field is
dominated by the corresponding live counter. -/
def sampleDB : DBState :=
  ⟨10, 20, 30, 40, 50, 60, 70, 80, 0, ⟨1, 2, 3, 4, 5, 6, 7, 8, 0⟩⟩

/-- A column-family state used by concrete witnesses: three levels, two files
on level 0 (one being compacted), compaction work recorded on level 1, and a
zero epoch snapshot. -/
def sampleCF : CFState :=
  ⟨3, .kCompactionStyleLevel,
    ⟨3, fun l => if l = 0 then [true, false] else [],
      fun l => if l = 0 then 1048576 else 0, fun i => i, fun _ => 0⟩,
    (fun l => if l = 1 then ⟨2000000, 100, 50, 120, 0, 1, 10, 2⟩ else .zero),
    7, 8, 9, 60, 1, 2, 3,
    (fun _ => 0), (fun _ => 0), (fun _ => 0), (fun _ => 0),
    ⟨.zero, 0, 0, 0⟩⟩

/-- C3 counterexample: in `DumpDBStats` the interval figures are raw 64-bit
differences, not clamped: with a snapshot whose `write_other` is `1` and a
current counter of `0`, the reported interval is `2^64 - 1`, while the
claimed clamped-at-zero difference is `0`. -/
theorem C3_counterexample_interval_wraps :
    (DumpDBStats ⟨0, 0, 0, 0, 0, 0, 0, 0, 0, ⟨0, 0, 0, 0, 1, 0, 0, 0, 0⟩⟩
        5).1.interval_write_other = 2 ^ 64 - 1 ∧
    (0 : Nat) - 1 = 0 ∧
    (2 ^ 64 - 1 : Nat) ≠ 0 := by
  refine ⟨?_, rfl, by norm_num⟩
  simp [DumpDBStats, usub64]

/-- C3 amended: each interval field of a string report is the *wrapping*
64-bit difference between the current cumulative value and the epoch
snapshot; it equals the true difference whenever the snapshot does not exceed
the current value (the monotone steady state), and only the per-column-family
aggregate `CompactionStats` diff goes through the clamped `Subtract`. -/
theorem C3_amended_interval_is_wrapping_difference (db : DBState)
    (cf : CFState) (now : Nat)
    (h1 : db.db_stats_snapshot.write_other ≤ db.write_done_by_other)
    (h2 : db.db_stats_snapshot.write_self ≤ db.write_done_by_self)
    (h3 : db.db_stats_snapshot.num_keys_written ≤ db.num_keys_written)
    (h4 : db.db_stats_snapshot.ingest_bytes ≤ db.bytes_written)
    (h5 : db.db_stats_snapshot.write_stall_micros ≤ db.write_stall_micros)
    (h6 : db.db_stats_snapshot.write_with_wal ≤ db.write_with_wal)
    (h7 : db.db_stats_snapshot.wal_synced ≤ db.wal_file_synced)
    (h8 : db.db_stats_snapshot.wal_bytes ≤ db.wal_file_bytes)
    (h9 : cf.cf_stats_snapshot.stall_count ≤ (cfAggOf cf).total_stall_count) :
    (DumpDBStats db now).1.interval_write_other
        = db.write_done_by_other - db.db_stats_snapshot.write_other ∧
    (DumpDBStats db now).1.interval_write_self
        = db.write_done_by_self - db.db_stats_snapshot.write_self ∧
    (DumpDBStats db now).1.interval_num_keys_written
        = db.num_keys_written - db.db_stats_snapshot.num_keys_written ∧
    (DumpDBStats db now).1.interval_ingest_bytes
        = db.bytes_written - db.db_stats_snapshot.ingest_bytes ∧
    (DumpDBStats db now).1.interval_stall_micros
        = db.write_stall_micros - db.db_stats_snapshot.write_stall_micros ∧
    (DumpDBStats db now).1.interval_write_with_wal
        = db.write_with_wal - db.db_stats_snapshot.write_with_wal ∧
    (DumpDBStats db now).1.interval_wal_synced
        = db.wal_file_synced - db.db_stats_snapshot.wal_synced ∧
    (DumpDBStats db now).1.interval_wal_bytes
        = db.wal_file_bytes - db.db_stats_snapshot.wal_bytes ∧
    (cfIntRow cf).stalls
        = (cfAggOf cf).total_stall_count - cf.cf_stats_snapshot.stall_count ∧
    (cfIntRow cf).stats
        = (cfAggOf cf).stats_sum.Subtract cf.cf_stats_snapshot.comp_stats := by
  refine ⟨?_, ?_, ?_, ?_, ?_, ?_, ?_, ?_, ?_, rfl⟩
  all_goals
    simp [DumpDBStats, cfIntRow, usub64_of_le, h1, h2, h3, h4, h5, h6, h7, h8, h9]

/-- Witness for C3 at `sampleDB` (snapshot dominated field-wise) and a
column family whose snapshot stall count is dominated by the current total. -/
theorem C3_amended_interval_is_wrapping_difference_witness :
    (sampleDB.db_stats_snapshot.write_other ≤ sampleDB.write_done_by_other ∧
      sampleCF.cf_stats_snapshot.stall_count
        ≤ (cfAggOf sampleCF).total_stall_count) ∧
    ((DumpDBStats sampleDB 100).1.interval_write_other
        = sampleDB.write_done_by_other - sampleDB.db_stats_snapshot.write_other ∧
      (DumpDBStats sampleDB 100).1.interval_write_self
        = sampleDB.write_done_by_self - sampleDB.db_stats_snapshot.write_self ∧
      (DumpDBStats sampleDB 100).1.interval_num_keys_written
        = sampleDB.num_keys_written - sampleDB.db_stats_snapshot.num_keys_written ∧
      (DumpDBStats sampleDB 100).1.interval_ingest_bytes
        = sampleDB.bytes_written - sampleDB.db_stats_snapshot.ingest_bytes ∧
      (DumpDBStats sampleDB 100).1.interval_stall_micros
        = sampleDB.write_stall_micros - sampleDB.db_stats_snapshot.write_stall_micros ∧
      (DumpDBStats sampleDB 100).1.interval_write_with_wal
        = sampleDB.write_with_wal - sampleDB.db_stats_snapshot.write_with_wal ∧
      (DumpDBStats sampleDB 100).1.interval_wal_synced
        = sampleDB.wal_file_synced - sampleDB.db_stats_snapshot.wal_synced ∧
      (DumpDBStats sampleDB 100).1.interval_wal_bytes
        = sampleDB.wal_file_bytes - sampleDB.db_stats_snapshot.wal_bytes ∧
      (cfIntRow sampleCF).stalls
        = (cfAggOf sampleCF).total_stall_count
            - sampleCF.cf_stats_snapshot.stall_count ∧
      (cfIntRow sampleCF).stats
        = (cfAggOf sampleCF).stats_sum.Subtract
            sampleCF.cf_stats_snapshot.comp_stats) :=
  ⟨⟨by decide, Nat.zero_le _⟩,
    C3_amended_interval_is_wrapping_difference sampleDB sampleCF 100
      (by decide) (by decide) (by decide) (by decide) (by decide) (by decide)
      (by decide) (by decide) (Nat.zero_le _)⟩

lemma cfAggOf_update_snapshot (cf : CFState) (s : CFStatsSnapshot) :
    cfAggOf { cf with cf_stats_snapshot := s } = cfAggOf cf := rfl

lemma dumpCFStats_snapshot (cf : CFState) :
    (DumpCFStats cf).2
      = ⟨(cfAggOf cf).stats_sum, cf.cf_value_bytes_flushed,
          (cfAggOf cf).total_stall_us, (cfAggOf cf).total_stall_count⟩ := rfl

/-- C4: a string report overwrites the epoch snapshot with the cumulative
totals it just computed, so with no intervening counter mutation the first
report's interval figures are the true delta since the last report (or since
engine start, when the snapshot is still zero-initialized), and a second
report's interval figures are all zero — the per-CF biased interval ingest
collapsing to its `+1` denominator floor. -/
theorem C4_second_report_interval_zero (db : DBState) (cf : CFState)
    (t1 t2 : Nat)
    (h1 : db.db_stats_snapshot.write_other ≤ db.write_done_by_other)
    (h2 : db.db_stats_snapshot.write_self ≤ db.write_done_by_self)
    (h3 : db.db_stats_snapshot.num_keys_written ≤ db.num_keys_written)
    (h4 : db.db_stats_snapshot.ingest_bytes ≤ db.bytes_written)
    (h5 : db.db_stats_snapshot.write_stall_micros ≤ db.write_stall_micros)
    (h6 : db.db_stats_snapshot.write_with_wal ≤ db.write_with_wal)
    (h7 : db.db_stats_snapshot.wal_synced ≤ db.wal_file_synced)
    (h8 : db.db_stats_snapshot.wal_bytes ≤ db.wal_file_bytes)
    (h9 : cf.cf_stats_snapshot.comp_stats.le (cfAggOf cf).stats_sum)
    (h10 : cf.cf_stats_snapshot.stall_count ≤ (cfAggOf cf).total_stall_count) :
    ((DumpDBStats db t1).1.interval_write_other
          + db.db_stats_snapshot.write_other = db.write_done_by_other ∧
      (DumpDBStats db t1).1.interval_write_self
          + db.db_stats_snapshot.write_self = db.write_done_by_self ∧
      (DumpDBStats db t1).1.interval_num_keys_written
          + db.db_stats_snapshot.num_keys_written = db.num_keys_written ∧
      (DumpDBStats db t1).1.interval_ingest_bytes
          + db.db_stats_snapshot.ingest_bytes = db.bytes_written ∧
      (DumpDBStats db t1).1.interval_stall_micros
          + db.db_stats_snapshot.write_stall_micros = db.write_stall_micros ∧
      (DumpDBStats db t1).1.interval_write_with_wal
          + db.db_stats_snapshot.write_with_wal = db.write_with_wal ∧
      (DumpDBStats db t1).1.interval_wal_synced
          + db.db_stats_snapshot.wal_synced = db.wal_file_synced ∧
      (DumpDBStats db t1).1.interval_wal_bytes
          + db.db_stats_snapshot.wal_bytes = db.wal_file_bytes) ∧
    ((cfIntRow cf).stats.Add cf.cf_stats_snapshot.comp_stats
          = (cfAggOf cf).stats_sum ∧
      (cfIntRow cf).stalls + cf.cf_stats_snapshot.stall_count
          = (cfAggOf cf).total_stall_count ∧
      (cfIntRow cf).stall_us + cf.cf_stats_snapshot.stall_us
          = (cfAggOf cf).total_stall_us) ∧
    ((DumpDBStats { db with db_stats_snapshot := (DumpDBStats db t1).2 }
          t2).1.interval_write_other = 0 ∧
      (DumpDBStats { db with db_stats_snapshot := (DumpDBStats db t1).2 }
          t2).1.interval_write_self = 0 ∧
      (DumpDBStats { db with db_stats_snapshot := (DumpDBStats db t1).2 }
          t2).1.interval_writes = 0 ∧
      (DumpDBStats { db with db_stats_snapshot := (DumpDBStats db t1).2 }
          t2).1.interval_num_keys_written = 0 ∧
      (DumpDBStats { db with db_stats_snapshot := (DumpDBStats db t1).2 }
          t2).1.interval_ingest_bytes = 0 ∧
      (DumpDBStats { db with db_stats_snapshot := (DumpDBStats db t1).2 }
          t2).1.interval_stall_micros = 0 ∧
      (DumpDBStats { db with db_stats_snapshot := (DumpDBStats db t1).2 }
          t2).1.interval_write_with_wal = 0 ∧
      (DumpDBStats { db with db_stats_snapshot := (DumpDBStats db t1).2 }
          t2).1.interval_wal_synced = 0 ∧
      (DumpDBStats { db with db_stats_snapshot := (DumpDBStats db t1).2 }
          t2).1.interval_wal_bytes = 0) ∧
    ((cfIntRow { cf with cf_stats_snapshot := (DumpCFStats cf).2 }).stats
          = CompactionStats.zero ∧
      (cfIntRow { cf with cf_stats_snapshot := (DumpCFStats cf).2 }).stall_us
          = 0 ∧
      (cfIntRow { cf with cf_stats_snapshot := (DumpCFStats cf).2 }).stalls
          = 0 ∧
      cfIntervalIngest { cf with cf_stats_snapshot := (DumpCFStats cf).2 }
          = 1) := by
  refine ⟨⟨?_, ?_, ?_, ?_, ?_, ?_, ?_, ?_⟩, ⟨?_, ?_, ?_⟩,
    ⟨?_, ?_, ?_, ?_, ?_, ?_, ?_, ?_, ?_⟩, ⟨?_, ?_, ?_, ?_⟩⟩
  · exact (by simp [DumpDBStats]; exact usub64_add_cancel h1)
  · exact (by simp [DumpDBStats]; exact usub64_add_cancel h2)
  · exact (by simp [DumpDBStats]; exact usub64_add_cancel h3)
  · exact (by simp [DumpDBStats]; exact usub64_add_cancel h4)
  · exact (by simp [DumpDBStats]; exact usub64_add_cancel h5)
  · exact (by simp [DumpDBStats]; exact usub64_add_cancel h6)
  · exact (by simp [DumpDBStats]; exact usub64_add_cancel h7)
  · exact (by simp [DumpDBStats]; exact usub64_add_cancel h8)
  · exact (by simp [cfIntRow]; exact compactionStats_sub_add_cancel h9)
  · exact (by simp [cfIntRow]; exact usub64_add_cancel h10)
  · exact (by simp [cfIntRow])
  · simp [DumpDBStats, usub64_self]
  · simp [DumpDBStats, usub64_self]
  · simp [DumpDBStats, usub64_self, uadd64]
  · simp [DumpDBStats, usub64_self]
  · simp [DumpDBStats, usub64_self]
  · simp [DumpDBStats, usub64_self]
  · simp [DumpDBStats, usub64_self]
  · simp [DumpDBStats, usub64_self]
  · simp [DumpDBStats, usub64_self]
  · rw [cfIntRow]
    simp only [cfAggOf_update_snapshot, dumpCFStats_snapshot]
    exact compactionStats_sub_self _
  · rw [cfIntRow]
    simp only [cfAggOf_update_snapshot, dumpCFStats_snapshot]
    exact sub_self _
  · rw [cfIntRow]
    simp only [cfAggOf_update_snapshot, dumpCFStats_snapshot]
    exact usub64_self _
  · rw [cfIntervalIngest]
    simp only [dumpCFStats_snapshot]
    simp [usub64_self, uadd64]

/-- Witness for C4 at `sampleDB`/`sampleCF`: the hypotheses hold there, and a
second report right after the first has all-zero interval figures. -/
theorem C4_second_report_interval_zero_witness :
    (sampleDB.db_stats_snapshot.write_other ≤ sampleDB.write_done_by_other ∧
      sampleCF.cf_stats_snapshot.comp_stats.le (cfAggOf sampleCF).stats_sum ∧
      sampleCF.cf_stats_snapshot.stall_count
        ≤ (cfAggOf sampleCF).total_stall_count) ∧
    ((DumpDBStats { sampleDB with
          db_stats_snapshot := (DumpDBStats sampleDB 100).2 }
        200).1.interval_write_other = 0 ∧
      (DumpDBStats { sampleDB with
          db_stats_snapshot := (DumpDBStats sampleDB 100).2 }
        200).1.interval_write_self = 0 ∧
      (DumpDBStats { sampleDB with
          db_stats_snapshot := (DumpDBStats sampleDB 100).2 }
        200).1.interval_writes = 0 ∧
      (DumpDBStats { sampleDB with
          db_stats_snapshot := (DumpDBStats sampleDB 100).2 }
        200).1.interval_num_keys_written = 0 ∧
      (DumpDBStats { sampleDB with
          db_stats_snapshot := (DumpDBStats sampleDB 100).2 }
        200).1.interval_ingest_bytes = 0 ∧
      (DumpDBStats { sampleDB with
          db_stats_snapshot := (DumpDBStats sampleDB 100).2 }
        200).1.interval_stall_micros = 0 ∧
      (DumpDBStats { sampleDB with
          db_stats_snapshot := (DumpDBStats sampleDB 100).2 }
        200).1.interval_write_with_wal = 0 ∧
      (DumpDBStats { sampleDB with
          db_stats_snapshot := (DumpDBStats sampleDB 100).2 }
        200).1.interval_wal_synced = 0 ∧
      (DumpDBStats { sampleDB with
          db_stats_snapshot := (DumpDBStats sampleDB 100).2 }
        200).1.interval_wal_bytes = 0) ∧
    ((cfIntRow { sampleCF with
          cf_stats_snapshot := (DumpCFStats sampleCF).2 }).stats
        = CompactionStats.zero ∧
      (cfIntRow { sampleCF with
          cf_stats_snapshot := (DumpCFStats sampleCF).2 }).stall_us = 0 ∧
      (cfIntRow { sampleCF with
          cf_stats_snapshot := (DumpCFStats sampleCF).2 }).stalls = 0 ∧
      cfIntervalIngest { sampleCF with
          cf_stats_snapshot := (DumpCFStats sampleCF).2 } = 1) := by
  have h := C4_second_report_interval_zero sampleDB sampleCF 100 200
    (by decide) (by decide) (by decide) (by decide) (by decide) (by decide)
    (by decide) (by decide)
    (by refine ⟨?_, ?_, ?_, ?_, ?_, ?_, ?_, ?_⟩ <;> exact Nat.zero_le _)
    (Nat.zero_le _)
  exact ⟨⟨by decide,
      by refine ⟨?_, ?_, ?_, ?_, ?_, ?_, ?_, ?_⟩ <;> exact Nat.zero_le _,
      Nat.zero_le _⟩,
    h.2.2.1, h.2.2.2⟩

lemma cfFold_rows (st : CFState) :
    ∀ (n : Nat) (acc : CFAgg),
      ((List.range n).foldl (cfStep st) acc).rows
        = acc.rows
          ++ ((List.range n).filter (levelRenderCond st)).map (levelRow st) := by
  intro n
  induction n with
  | zero => intro acc; simp
  | succ n ih =>
    intro acc
    rw [List.range_succ, List.foldl_append, List.filter_append, List.map_append,
      ← List.append_assoc, ← ih acc]
    by_cases hc : levelRenderCond st n
    · simp [cfStep, hc]
    · simp [cfStep, hc]

lemma cfFold_sum (st : CFState) :
    ∀ (n : Nat) (acc : CFAgg),
      ((List.range n).foldl (cfStep st) acc).stats_sum
        = ((List.range n).filter (levelRenderCond st)).foldl
            (fun a l => a.Add (st.comp_stats l)) acc.stats_sum := by
  intro n
  induction n with
  | zero => intro acc; simp
  | succ n ih =>
    intro acc
    rw [List.range_succ, List.foldl_append, List.filter_append, List.foldl_append,
      ← ih acc]
    by_cases hc : levelRenderCond st n
    · simp [cfStep, hc]
    · simp [cfStep, hc]

/-- C8: the per-column-family table renders exactly one row per level whose
render guard holds — a level with at least one file or nonzero historical
compaction time — in level order, followed by the `Sum` row (which aggregates
the rendered levels' `CompactionStats`) and the `Int` row (the
interval-diffed aggregate). -/
theorem C8_level_rows_iff_files_or_compaction (st : CFState) :
    (DumpCFStats st).1.rows
      = ((List.range st.number_levels).filter (levelRenderCond st)).map
          (levelRow st) ++ [cfSumRow st, cfIntRow st] ∧
    (∀ level, levelRenderCond st level = true ↔
      0 < numLevelFiles st level ∨ 0 < (st.comp_stats level).micros) ∧
    (cfSumRow st).stats
      = ((List.range st.number_levels).filter (levelRenderCond st)).foldl
          (fun a l => a.Add (st.comp_stats l)) CompactionStats.zero ∧
    (cfIntRow st).stats
      = (cfSumRow st).stats.Subtract st.cf_stats_snapshot.comp_stats := by
  refine ⟨?_, ?_, ?_, rfl⟩
  · show (cfAggOf st).rows ++ [cfSumRow st, cfIntRow st] = _
    rw [cfAggOf, cfFold_rows st st.number_levels initCFAgg]
    simp [initCFAgg]
  · intro level
    simp [levelRenderCond, or_comm]
  · show (cfAggOf st).stats_sum = _
    rw [cfAggOf, cfFold_sum st st.number_levels initCFAgg]
    rfl

/-- A column family exercising the write-amplification corner cases: the one
rendered level (level 1) has `bytes_readn = 0` and `bytes_written = 5`, and
the flushed-bytes counter is `1`. -/
def cfC2 : CFState :=
  ⟨2, .kCompactionStyleLevel,
    ⟨2, fun _ => [], fun _ => 0, fun _ => 0, fun _ => 0⟩,
    (fun l => if l = 1 then ⟨2000000, 0, 0, 5, 0, 1, 0, 0⟩ else .zero),
    0, 0, 0, 1, 0, 0, 0,
    (fun _ => 0), (fun _ => 0), (fun _ => 0), (fun _ => 0),
    ⟨.zero, 0, 0, 0⟩⟩

/-- C2 counterexample: the claimed `bytes_written / max(bytes_readn, 1)`
formula disagrees with the code in both scopes.  On `cfC2`'s level-1 row the
code renders write amplification `0` (the `bytes_readn == 0` guard) while the
claimed formula gives `5`; on the `Sum` row the code renders
`5 / (ingest + 1) = 5/2` while the claimed formula gives `5 / max(1,1) = 5`. -/
theorem C2_counterexample_wamp_formula :
    (DumpCFStats cfC2).1.rows.head? = some (levelRow cfC2 1) ∧
    (levelRow cfC2 1).w_amp = 0 ∧
    ((cfC2.comp_stats 1).bytes_written : ℚ)
        / ((max (cfC2.comp_stats 1).bytes_readn 1 : Nat) : ℚ) = 5 ∧
    (cfSumRow cfC2).w_amp = 5 / 2 ∧
    ((cfAggOf cfC2).stats_sum.bytes_written : ℚ)
        / ((max cfC2.cf_value_bytes_flushed 1 : Nat) : ℚ) = 5 ∧
    (0 : ℚ) ≠ 5 ∧ (5 / 2 : ℚ) ≠ 5 := by
  have hsum : (cfAggOf cfC2).stats_sum = ⟨2000000, 0, 0, 5, 0, 1, 0, 0⟩ := rfl
  refine ⟨rfl, ?_, ?_, ?_, ?_, by norm_num, by norm_num⟩
  · simp [levelRow, levelWAmp, cfC2]
  · norm_num [cfC2]
  · rw [cfSumRow]
    simp only [hsum]
    norm_num [cfC2]
  · rw [hsum]
    norm_num [cfC2]

/-- C2 amended: a rendered level's row carries write amplification `0` when
`bytes_readn = 0` and `bytes_written / bytes_readn` otherwise; the `Sum` row
carries `bytes_written / (ingest_bytes + 1)` with the `+1`-biased denominator
(ingest being the bytes flushed from memtable into level 0), and the `Int`
row the interval analogue over the biased interval ingest. -/
theorem C2_amended_wamp (st : CFState) (level : Nat)
    (hlt : level < st.number_levels) (hc : levelRenderCond st level = true) :
    levelRow st level ∈ (DumpCFStats st).1.rows ∧
    (levelRow st level).w_amp
      = (if (st.comp_stats level).bytes_readn = 0 then 0
         else ((st.comp_stats level).bytes_written : ℚ)
            / ((st.comp_stats level).bytes_readn : ℚ)) ∧
    cfSumRow st ∈ (DumpCFStats st).1.rows ∧
    (cfSumRow st).w_amp
      = ((cfAggOf st).stats_sum.bytes_written : ℚ)
          / ((st.cf_value_bytes_flushed + 1 : Nat) : ℚ) ∧
    (cfIntRow st).w_amp
      = (((cfAggOf st).stats_sum.Subtract
            st.cf_stats_snapshot.comp_stats).bytes_written : ℚ)
          / ((cfIntervalIngest st : Nat) : ℚ) := by
  have hrows : (DumpCFStats st).1.rows
      = ((List.range st.number_levels).filter (levelRenderCond st)).map
          (levelRow st) ++ [cfSumRow st, cfIntRow st] := by
    show (cfAggOf st).rows ++ [cfSumRow st, cfIntRow st] = _
    rw [cfAggOf, cfFold_rows st st.number_levels initCFAgg]
    simp [initCFAgg]
  refine ⟨?_, rfl, ?_, rfl, rfl⟩
  · rw [hrows]
    refine List.mem_append_left _ (List.mem_map_of_mem _ ?_)
    rw [List.mem_filter]
    exact ⟨List.mem_range.mpr hlt, hc⟩
  · rw [hrows]
    exact List.mem_append_right _ (by simp)

/-- Witness for C2 at `cfC2`, level 1 (in range and rendered). -/
theorem C2_amended_wamp_witness :
    (1 < cfC2.number_levels ∧ levelRenderCond cfC2 1 = true) ∧
    (levelRow cfC2 1 ∈ (DumpCFStats cfC2).1.rows ∧
      (levelRow cfC2 1).w_amp
        = (if (cfC2.comp_stats 1).bytes_readn = 0 then 0
           else ((cfC2.comp_stats 1).bytes_written : ℚ)
              / ((cfC2.comp_stats 1).bytes_readn : ℚ)) ∧
      cfSumRow cfC2 ∈ (DumpCFStats cfC2).1.rows ∧
      (cfSumRow cfC2).w_amp
        = ((cfAggOf cfC2).stats_sum.bytes_written : ℚ)
            / ((cfC2.cf_value_bytes_flushed + 1 : Nat) : ℚ) ∧
      (cfIntRow cfC2).w_amp
        = (((cfAggOf cfC2).stats_sum.Subtract
              cfC2.cf_stats_snapshot.comp_stats).bytes_written : ℚ)
            / ((cfIntervalIngest cfC2 : Nat) : ℚ)) :=
  ⟨⟨by decide, by decide⟩, C2_amended_wamp cfC2 1 (by decide) (by decide)⟩

/-- A single-level column family holding two files at level 0, for exercising
the `num-files-at-level` query. -/
def cfC6 : CFState :=
  ⟨1, .kCompactionStyleLevel,
    ⟨1, fun l => if l = 0 then [false, false] else [], fun _ => 0,
      fun _ => 0, fun _ => 0⟩,
    (fun _ => .zero),
    0, 0, 0, 0, 0, 0, 0,
    (fun _ => 0), (fun _ => 0), (fun _ => 0), (fun _ => 0),
    ⟨.zero, 0, 0, 0⟩⟩

/-- An all-zero DB-stats state. -/
def dbZero : DBState := ⟨0, 0, 0, 0, 0, 0, 0, 0, 0, ⟨0, 0, 0, 0, 0, 0, 0, 0, 0⟩⟩

/-- An engine state over `cfC6` with one configured level. -/
def esC6 : EngineState := ⟨cfC6, dbZero, "default", "", 0⟩

/-- C6 (code bug): the source compares the parsed `uint64_t` level against
the level count after narrowing it with `(int)level`, so
`rocksdb.num-files-at-level4294967296` — level index `2^32`, far beyond the
single configured level — narrows to `0`, passes the range check, and the
query *succeeds* with level 0's file count, where the claim (and the spec's
out-of-range contract) requires failure.  In-range and plainly out-of-range
indices behave as claimed. -/
theorem C6_narrowed_level_check :
    toInt32 4294967296 = 0 ∧
    ((GetStringProperty esC6 .kNumFilesAtLevel
        "rocksdb.num-files-at-level4294967296".data "").1 = true ∧
      (GetStringProperty esC6 .kNumFilesAtLevel
        "rocksdb.num-files-at-level4294967296".data "").2.1 = "2") ∧
    esC6.cf.number_levels ≤ 4294967296 ∧
    ((GetStringProperty esC6 .kNumFilesAtLevel
        "rocksdb.num-files-at-level1".data "").1 = false) ∧
    ((GetStringProperty esC6 .kNumFilesAtLevel
        "rocksdb.num-files-at-levelx".data "").1 = false) ∧
    ((GetStringProperty esC6 .kNumFilesAtLevel
        "rocksdb.num-files-at-level0x".data "").1 = false) ∧
    ((GetStringProperty esC6 .kNumFilesAtLevel
        "rocksdb.num-files-at-level0".data "").1 = true ∧
      (GetStringProperty esC6 .kNumFilesAtLevel
        "rocksdb.num-files-at-level0".data "").2.1 = "2") := by
  refine ⟨by decide, ⟨?_, ?_⟩, by decide, ?_, ?_, ?_, ?_, ?_⟩ <;> decide

/-- C9: querying the aggregate `kStats` kind appends to the output exactly
what querying `kCFStats` and then `kDBStats` (threading the value string and
the state) would append, and succeeds exactly when both sub-reports
succeed. -/
theorem C9_kstats_is_cfstats_then_dbstats (st : EngineState)
    (property : List Char) (value : String) :
    GetStringProperty st .kStats property value
      = ((GetStringProperty st .kCFStats "rocksdb.cfstats".data value).1
            && (GetStringProperty
                  (GetStringProperty st .kCFStats "rocksdb.cfstats".data
                    value).2.2
                  .kDBStats "rocksdb.dbstats".data
                  (GetStringProperty st .kCFStats "rocksdb.cfstats".data
                    value).2.1).1,
          (GetStringProperty
              (GetStringProperty st .kCFStats "rocksdb.cfstats".data
                value).2.2
              .kDBStats "rocksdb.dbstats".data
              (GetStringProperty st .kCFStats "rocksdb.cfstats".data
                value).2.1).2.1,
          (GetStringProperty
              (GetStringProperty st .kCFStats "rocksdb.cfstats".data
                value).2.2
              .kDBStats "rocksdb.dbstats".data
              (GetStringProperty st .kCFStats "rocksdb.cfstats".data
                value).2.1).2.2) := rfl

end RocksDBStats
